import Mathlib

/-!
Verification of the admission/execution core in `Thunder/__main__.py`.

The Python module is embedded shallowly: each coroutine becomes a Lean
function from an explicit description of its environment's behaviour
(queue contents, handler outcomes, phase outcomes, cancellation points)
to the finite trace of observable events it produces (log calls, handler
invocations, phases run).  Cooperative cancellation is modelled the way
asyncio delivers it: a `CancelledError` raised at a suspension point,
either while awaiting the next queue item or inside an in-flight
handler's own await.
-/

namespace Thunder

/-- Python values as far as the executor's truthiness test
`all([handler_type, bot, message, user_id])` can distinguish them:
`None`, integers (0 is falsy), strings ("" is falsy), and opaque
objects (always truthy). -/
inductive PyVal where
  | pynone
  | pyint (n : Int)
  | pystr (s : String)
  | pyobj (id : Nat)
  deriving DecidableEq

/-- Python truthiness of a `PyVal`. -/
def PyVal.truthy : PyVal → Bool
  | .pynone => false
  | .pyint n => n != 0
  | .pystr s => s != ""
  | .pyobj _ => true

/-- The request dict consumed by `request_executor`.  A key absent from
the dict and a key mapped to `None` both read back as `None` through
`request_data.get`, so both are `PyVal.pynone` here.  `kwargs` defaults
to the empty dict and is never validated, so it is kept opaque. -/
structure RequestData where
  handler_type : PyVal
  bot : PyVal
  message : PyVal
  kwargs : PyVal
  user_id : PyVal
  deriving DecidableEq

/-- The validation test at `__main__.py:209`:
`all([handler_type, bot, message, user_id])`, i.e. the conjunction of
the four fields' truthiness (note: truthiness, not mere non-nullness). -/
def requestValid (r : RequestData) : Bool :=
  r.handler_type.truthy && r.bot.truthy && r.message.truthy && r.user_id.truthy

/-- Behaviour of the dispatched handler coroutine on one request:
it returns, raises an `Exception`, or a `CancelledError` is raised at
one of its internal suspension points (asyncio cancellation delivered
mid-handler; in Python 3.8+ `CancelledError` is not an `Exception`). -/
inductive HandlerOutcome where
  | ok
  | raises (e : String)
  | cancelled
  deriving DecidableEq

/-- What the executor's `async for` sees next: either an item is
dequeued (paired with how its handler would behave if dispatched), or a
`CancelledError` is delivered while suspended waiting for the next
item — that exception is raised outside the loop body's `try`. -/
inductive QueueEvent where
  | item (r : RequestData) (out : HandlerOutcome)
  | cancelDequeue
  deriving DecidableEq

/-- Observable events of `request_executor` (`__main__.py:199-226`). -/
inductive ExecEvent where
  | logSkipInvalid (r : RequestData)
  | invoked (handler : String) (r : RequestData)
  | handlerCompleted (handler : String) (r : RequestData)
  | logHandlerError (user : PyVal) (e : String)
  | logUnknownType (ht : PyVal)
  | logCancelledShutdown
  deriving DecidableEq

/-- The consumer loop of `request_executor` (`__main__.py:201-226`),
as a trace function over the sequence of queue events.  An exhausted
input list means observation stops (the real generator would keep the
loop suspended).  A `cancelDequeue` ends the loop with no further
events: the `CancelledError` from the dequeue await is outside the
`try` and terminates the `async for`.  For a dequeued item the loop
first validates, then dispatches on `handler_type` ('private' checked
before 'link'), catching `CancelledError` (log then `break`) and any
`Exception` (log with the request's `user_id` then continue). -/
def executorLoop : List QueueEvent → List ExecEvent
  | [] => []
  | QueueEvent.cancelDequeue :: _ => []
  | QueueEvent.item r out :: rest =>
    if requestValid r = false then
      ExecEvent.logSkipInvalid r :: executorLoop rest
    else if r.handler_type = PyVal.pystr "private" then
      match out with
      | HandlerOutcome.ok =>
          ExecEvent.invoked "private_receive_handler" r ::
          ExecEvent.handlerCompleted "private_receive_handler" r :: executorLoop rest
      | HandlerOutcome.raises e =>
          ExecEvent.invoked "private_receive_handler" r ::
          ExecEvent.logHandlerError r.user_id e :: executorLoop rest
      | HandlerOutcome.cancelled =>
          [ExecEvent.invoked "private_receive_handler" r, ExecEvent.logCancelledShutdown]
    else if r.handler_type = PyVal.pystr "link" then
      match out with
      | HandlerOutcome.ok =>
          ExecEvent.invoked "link_handler" r ::
          ExecEvent.handlerCompleted "link_handler" r :: executorLoop rest
      | HandlerOutcome.raises e =>
          ExecEvent.invoked "link_handler" r ::
          ExecEvent.logHandlerError r.user_id e :: executorLoop rest
      | HandlerOutcome.cancelled =>
          [ExecEvent.invoked "link_handler" r, ExecEvent.logCancelledShutdown]
    else
      ExecEvent.logUnknownType r.handler_type :: executorLoop rest

/-- Inputs of one iteration of `schedule_token_cleanup`
(`__main__.py:188-197`): the purge succeeds, raises an `Exception`, or
a `CancelledError` arrives during the sleep or during the purge. -/
inductive ReaperIn where
  | purgeOk
  | purgeFails (e : String)
  | cancelDuringSleep
  | cancelDuringPurge
  deriving DecidableEq

/-- Observable events of `schedule_token_cleanup`. -/
inductive ReaperOut where
  | slept
  | purgeInvoked
  | logPurgeError (e : String)
  | logCancelled
  deriving DecidableEq

/-- The loop of `schedule_token_cleanup` (`__main__.py:188-197`):
`while True: try: await sleep(3*3600); await cleanup_expired_tokens()
except CancelledError: log; break except Exception: log`.  The input
list is the observed schedule of per-iteration outcomes; exhausting it
truncates observation of the infinite loop. -/
def schedule_token_cleanup : List ReaperIn → List ReaperOut
  | [] => []
  | ReaperIn.purgeOk :: rest =>
      ReaperOut.slept :: ReaperOut.purgeInvoked :: schedule_token_cleanup rest
  | ReaperIn.purgeFails e :: rest =>
      ReaperOut.slept :: ReaperOut.purgeInvoked ::
      ReaperOut.logPurgeError e :: schedule_token_cleanup rest
  | ReaperIn.cancelDuringSleep :: _ => [ReaperOut.logCancelled]
  | ReaperIn.cancelDuringPurge :: _ => [ReaperOut.slept, ReaperOut.logCancelled]

/-- Result of a single attempt of an API call, as the retry guard
distinguishes them: success, a flood-wait rejection carrying a
`retry_after` duration, or any other failure. -/
inductive ApiResult (α : Type) where
  | ok (a : α)
  | floodWait (retry_after : Nat)
  | failure (e : String)
  deriving DecidableEq

/-- Modelled from the spec: `handle_flood_wait` (the RetryGuard,
spec section 4.1) lives in `Thunder/utils/handler.py`, which is not part
of the given sources; only its call sites appear in `__main__.py`.
Per the spec it executes the operation; on a flood-wait rejection
carrying `retry_after` it suspends the task for `retry_after` plus a
fixed safety margin and re-invokes, up to a maximum number of attempts;
any other failure is propagated unchanged to the caller.  `op n` is the
outcome of attempt `n`; the result pairs the value the caller observes
with the total time slept. -/
def handle_flood_wait {α : Type} (margin : Nat) :
    Nat → (Nat → ApiResult α) → Nat → Nat → Except String α × Nat
  | 0, _, _, slept => (Except.error "flood wait attempts exhausted", slept)
  | fuel + 1, op, attempt, slept =>
    match op attempt with
    | ApiResult.ok a => (Except.ok a, slept)
    | ApiResult.failure e => (Except.error e, slept)
    | ApiResult.floodWait t =>
        handle_flood_wait margin fuel op (attempt + 1) (slept + t + margin)

/-- What `await task` does for a task that was just sent `cancel()`
(`__main__.py:164-170`): it raises `CancelledError` (the normal
cancelled outcome), returns normally (the task had already finished),
or re-raises the exception the task had already died with. -/
inductive AwaitResult where
  | cancelledError
  | finishedOk
  | raisedError (e : String)
  deriving DecidableEq

/-- True when awaiting the task does not re-raise a stored error. -/
def taskOk : Option AwaitResult → Bool
  | none => true
  | some (AwaitResult.raisedError _) => false
  | some _ => true

/-- Observable events of the shutdown block (`__main__.py:162-186`). -/
inductive ShutEvent where
  | taskCancelRequested (name : String)
  | taskAwaited (name : String)
  | rateLimiterShutdownRan
  | logRateLimiterError (e : String)
  | cleanupClientsRan
  | logClientCleanupError (e : String)
  | appRunnerCleanupRan
  | logWebCleanupError (e : String)
  deriving DecidableEq

/-- The task-cancellation loop (`__main__.py:164-170`):
`for task in [...]: if task: task.cancel(); try: await task
except asyncio.CancelledError: pass`.  A falsy entry (variable absent)
is skipped.  Only `CancelledError` is caught: a task that already
exited with another error makes `await task` re-raise it, which
escapes the loop — returned as the second component. -/
def awaitTasks : List (String × Option AwaitResult) → List ShutEvent × Option String
  | [] => ([], none)
  | (_, none) :: rest => awaitTasks rest
  | (n, some AwaitResult.cancelledError) :: rest =>
      let p := awaitTasks rest
      (ShutEvent.taskCancelRequested n :: ShutEvent.taskAwaited n :: p.1, p.2)
  | (n, some AwaitResult.finishedOk) :: rest =>
      let p := awaitTasks rest
      (ShutEvent.taskCancelRequested n :: ShutEvent.taskAwaited n :: p.1, p.2)
  | (n, some (AwaitResult.raisedError e)) :: _ =>
      ([ShutEvent.taskCancelRequested n], some e)

/-- Events of one guarded shutdown phase: the phase is attempted, and a
raised `Exception` is logged (`try: ... except Exception: log`). -/
def phaseEvents (attempted : ShutEvent) (logged : String → ShutEvent) :
    Option String → List ShutEvent
  | none => [attempted]
  | some e => [attempted, logged e]

/-- Environment of the shutdown block: how awaiting each cancelled task
ends (`none` = the local variable was never set), and whether each of
the three guarded cleanup phases raises (`some e`) or succeeds.
`app_runner` is `none` when absent from `locals()`. -/
structure ShutdownState where
  keepalive_task : Option AwaitResult
  token_cleanup_task : Option AwaitResult
  request_executor_task : Option AwaitResult
  rate_limiter_shutdown : Option String
  cleanup_clients : Option String
  app_runner : Option (Option String)
  deriving DecidableEq

/-- The shutdown block of `start_services` (`__main__.py:162-186`):
cancel and await the three background tasks, then rate-limiter
shutdown, then client cleanup, then web-runner cleanup, the last three
each wrapped in `try/except Exception` with logging.  An error
re-raised by `await task` escapes uncaught (second component `some e`)
and none of the later phases run. -/
def shutdownServices (s : ShutdownState) : List ShutEvent × Option String :=
  match awaitTasks [("keepalive_task", s.keepalive_task),
                    ("token_cleanup_task", s.token_cleanup_task),
                    ("request_executor_task", s.request_executor_task)] with
  | (evs, some e) => (evs, some e)
  | (evs, none) =>
      (evs ++ phaseEvents ShutEvent.rateLimiterShutdownRan
                ShutEvent.logRateLimiterError s.rate_limiter_shutdown
           ++ phaseEvents ShutEvent.cleanupClientsRan
                ShutEvent.logClientCleanupError s.cleanup_clients
           ++ (match s.app_runner with
               | none => []
               | some o => phaseEvents ShutEvent.appRunnerCleanupRan
                             ShutEvent.logWebCleanupError o), none)

/-- Environment of the startup phases of `start_services`
(`__main__.py:82-147`): `some e` means the guarded block raised `e`.
`bot_init` covers the first `try` (primary authentication, command
registration, restart-message handling — whose own failure is caught
inside and does not escape); `client_init` covers
`initialize_clients()`; `web_start` covers building and binding the
web server (`web_server`/`AppRunner`/`setup`/`TCPSite.start`). -/
structure StartupOutcomes where
  bot_init : Option String
  client_init : Option String
  web_start : Option String
  deriving DecidableEq

/-- Observable events of the startup phases of `start_services`. -/
inductive StartEvent where
  | logBotInitError (e : String)
  | logClientInitError (e : String)
  | pluginsImported
  | executorTaskStarted
  | logWebStartError (e : String)
  | webServerStarted
  | keepaliveTaskStarted
  | tokenCleanupTaskStarted
  | enteredIdle
  deriving DecidableEq

/-- The startup path of `start_services` (`__main__.py:82-160`):
each fatal phase failure logs and `return`s.  The second component is
the list of background tasks still running (neither cancelled nor
awaited) at the moment the function returns or reaches `idle()`: on
the `web_start` failure path the request-executor task created at
line 127 is left running — no path cancels it. -/
def start_services (o : StartupOutcomes) : List StartEvent × List String :=
  match o.bot_init with
  | some e => ([StartEvent.logBotInitError e], [])
  | none =>
    match o.client_init with
    | some e => ([StartEvent.logClientInitError e], [])
    | none =>
      match o.web_start with
      | some e =>
          ([StartEvent.pluginsImported, StartEvent.executorTaskStarted,
            StartEvent.logWebStartError e], ["request_executor_task"])
      | none =>
          ([StartEvent.pluginsImported, StartEvent.executorTaskStarted,
            StartEvent.webServerStarted, StartEvent.keepaliveTaskStarted,
            StartEvent.tokenCleanupTaskStarted, StartEvent.enteredIdle],
           ["request_executor_task", "keepalive_task", "token_cleanup_task"])

/-- A well-formed 'link' request, as in the spec's end-to-end example. -/
def sampleLinkReq : RequestData :=
  ⟨PyVal.pystr "link", PyVal.pyobj 1, PyVal.pyobj 2, PyVal.pyobj 0, PyVal.pyint 42⟩

/-- A well-formed 'private' request, as in the spec's example. -/
def samplePrivateReq : RequestData :=
  ⟨PyVal.pystr "private", PyVal.pyobj 1, PyVal.pyobj 3, PyVal.pyobj 0, PyVal.pyint 7⟩

/-- A request with every field missing (`None`). -/
def sampleMissingReq : RequestData :=
  ⟨PyVal.pynone, PyVal.pyobj 1, PyVal.pyobj 2, PyVal.pyobj 0, PyVal.pyint 42⟩

/-- An option that awaits without re-raising a stored error is `none` or
one of the two benign results. -/
theorem taskOk_cases (o : Option AwaitResult) (h : taskOk o = true) :
    o = none ∨ o = some AwaitResult.cancelledError ∨ o = some AwaitResult.finishedOk := by
  rcases o with _ | r
  · exact Or.inl rfl
  · rcases r with _ | _ | e
    · exact Or.inr (Or.inl rfl)
    · exact Or.inr (Or.inr rfl)
    · simp [taskOk] at h

/-- C1: a dequeued request whose `handler_type`, `bot`, `message` or
`user_id` is missing (reads back as `None`) is logged and discarded:
its head event is the skip log, no handler is invoked for it, and the
rest of the queue is processed exactly as it would be on its own, so
malformed input never terminates the consumer loop. -/
theorem C1_missing_field_skipped (r : RequestData) (out : HandlerOutcome)
    (rest : List QueueEvent)
    (h : r.handler_type = PyVal.pynone ∨ r.bot = PyVal.pynone ∨
         r.message = PyVal.pynone ∨ r.user_id = PyVal.pynone) :
    executorLoop (QueueEvent.item r out :: rest) =
      ExecEvent.logSkipInvalid r :: executorLoop rest := by
  have hv : requestValid r = false := by
    rcases h with h | h | h | h <;> simp [requestValid, h, PyVal.truthy]
  simp [executorLoop, hv]

/-- Witness for C1 at a concrete request with `handler_type = None`,
followed by a well-formed request that is still executed. -/
theorem C1_missing_field_skipped_witness :
    executorLoop [QueueEvent.item sampleMissingReq HandlerOutcome.ok,
                  QueueEvent.item sampleLinkReq HandlerOutcome.ok] =
      ExecEvent.logSkipInvalid sampleMissingReq ::
      executorLoop [QueueEvent.item sampleLinkReq HandlerOutcome.ok] :=
  C1_missing_field_skipped sampleMissingReq HandlerOutcome.ok
    [QueueEvent.item sampleLinkReq HandlerOutcome.ok] (Or.inl rfl)

/-- C2: when the dispatched handler raises an `Exception` on a valid
request, the executor logs the error together with the request's
`user_id` and processes the remaining queue exactly as it would on its
own — one handler failure never stops the loop.  (A `CancelledError`
is not an `Exception` in Python 3.8+ and is the shutdown signal of C5.) -/
theorem C2_handler_error_isolated (r : RequestData) (e : String)
    (rest : List QueueEvent) (hv : requestValid r = true)
    (hk : r.handler_type = PyVal.pystr "link" ∨
          r.handler_type = PyVal.pystr "private") :
    ∃ h, (h = "link_handler" ∨ h = "private_receive_handler") ∧
      executorLoop (QueueEvent.item r (HandlerOutcome.raises e) :: rest) =
        ExecEvent.invoked h r :: ExecEvent.logHandlerError r.user_id e ::
        executorLoop rest := by
  rcases hk with hk | hk
  · exact ⟨"link_handler", Or.inl rfl, by simp [executorLoop, hv, hk]⟩
  · exact ⟨"private_receive_handler", Or.inr rfl, by simp [executorLoop, hv, hk]⟩

/-- Witness for C2: a failing link handler is logged with user 42 and
the following private request still runs to completion. -/
theorem C2_handler_error_isolated_witness :
    ∃ h, (h = "link_handler" ∨ h = "private_receive_handler") ∧
      executorLoop [QueueEvent.item sampleLinkReq (HandlerOutcome.raises "boom"),
                    QueueEvent.item samplePrivateReq HandlerOutcome.ok] =
        ExecEvent.invoked h sampleLinkReq ::
        ExecEvent.logHandlerError (PyVal.pyint 42) "boom" ::
        executorLoop [QueueEvent.item samplePrivateReq HandlerOutcome.ok] :=
  C2_handler_error_isolated sampleLinkReq "boom"
    [QueueEvent.item samplePrivateReq HandlerOutcome.ok] (by decide) (Or.inl rfl)

/-- C3: a valid request whose `handler_type` is present (truthy) but
neither 'link' nor 'private' is logged as unknown and discarded — no
handler is invoked, nothing is raised, and the rest of the queue is
processed unchanged. -/
theorem C3_unknown_kind_skipped (r : RequestData) (out : HandlerOutcome)
    (rest : List QueueEvent) (hv : requestValid r = true)
    (h1 : r.handler_type ≠ PyVal.pystr "link")
    (h2 : r.handler_type ≠ PyVal.pystr "private") :
    executorLoop (QueueEvent.item r out :: rest) =
      ExecEvent.logUnknownType r.handler_type :: executorLoop rest := by
  simp [executorLoop, hv, h1, h2]

/-- Witness for C3 at a concrete request of kind 'weird'. -/
theorem C3_unknown_kind_skipped_witness :
    executorLoop [QueueEvent.item
        ⟨PyVal.pystr "weird", PyVal.pyobj 1, PyVal.pyobj 2, PyVal.pyobj 0, PyVal.pyint 5⟩
        HandlerOutcome.ok,
      QueueEvent.item sampleLinkReq HandlerOutcome.ok] =
      ExecEvent.logUnknownType (PyVal.pystr "weird") ::
      executorLoop [QueueEvent.item sampleLinkReq HandlerOutcome.ok] :=
  C3_unknown_kind_skipped
    ⟨PyVal.pystr "weird", PyVal.pyobj 1, PyVal.pyobj 2, PyVal.pyobj 0, PyVal.pyint 5⟩
    HandlerOutcome.ok [QueueEvent.item sampleLinkReq HandlerOutcome.ok]
    (by decide) (by decide) (by decide)

/-- C4: dispatch is by kind to exactly one handler — 'link' invokes
`link_handler` with the request's bot and message, 'private' invokes
`private_receive_handler` — and a 'link' request enqueued before a
'private' request produces exactly the four events link-invoked,
link-completed, private-invoked, private-completed, in that order,
before the rest of the queue is processed: each handler runs exactly
once, FIFO order preserved. -/
theorem C4_dispatch_by_kind (r1 r2 : RequestData) (rest : List QueueEvent)
    (hv1 : requestValid r1 = true) (hk1 : r1.handler_type = PyVal.pystr "link")
    (hv2 : requestValid r2 = true) (hk2 : r2.handler_type = PyVal.pystr "private") :
    executorLoop (QueueEvent.item r1 HandlerOutcome.ok ::
                  QueueEvent.item r2 HandlerOutcome.ok :: rest) =
      ExecEvent.invoked "link_handler" r1 ::
      ExecEvent.handlerCompleted "link_handler" r1 ::
      ExecEvent.invoked "private_receive_handler" r2 ::
      ExecEvent.handlerCompleted "private_receive_handler" r2 ::
      executorLoop rest := by
  simp [executorLoop, hv1, hk1, hv2, hk2]

/-- Witness for C4 at the spec's end-to-end example: a 'link' request
for user 42 then a 'private' request for user 7. -/
theorem C4_dispatch_by_kind_witness :
    executorLoop [QueueEvent.item sampleLinkReq HandlerOutcome.ok,
                  QueueEvent.item samplePrivateReq HandlerOutcome.ok] =
      ExecEvent.invoked "link_handler" sampleLinkReq ::
      ExecEvent.handlerCompleted "link_handler" sampleLinkReq ::
      ExecEvent.invoked "private_receive_handler" samplePrivateReq ::
      ExecEvent.handlerCompleted "private_receive_handler" samplePrivateReq ::
      executorLoop [] :=
  C4_dispatch_by_kind sampleLinkReq samplePrivateReq []
    (by decide) rfl (by decide) rfl

/-- C5 counterexample: a cancellation delivered at a suspension point
inside an in-flight handler does interrupt it — the handler is invoked
but never completes (the `except CancelledError` branch at
`__main__.py:222-224` catches the exception escaping the handler),
refuting the claim that the in-flight handler is always allowed to run
to completion. -/
theorem C5_counterexample :
    ExecEvent.invoked "link_handler" sampleLinkReq ∈
      executorLoop [QueueEvent.item sampleLinkReq HandlerOutcome.cancelled,
                    QueueEvent.item samplePrivateReq HandlerOutcome.ok] ∧
    ExecEvent.handlerCompleted "link_handler" sampleLinkReq ∉
      executorLoop [QueueEvent.item sampleLinkReq HandlerOutcome.cancelled,
                    QueueEvent.item samplePrivateReq HandlerOutcome.ok] := by
  decide

/-- C5 as amended: on a cancellation delivered while the executor is
suspended waiting for the next item, the loop ends at once and nothing
later is dequeued; on a cancellation delivered at a suspension point
inside an in-flight handler, the handler is interrupted there, the
executor catches the cancellation, logs the shutdown, and exits — in
both cases no request after the cancellation point is ever dequeued. -/
theorem C5_cancellation_exits_loop (r : RequestData) (rest : List QueueEvent)
    (hv : requestValid r = true) (hk : r.handler_type = PyVal.pystr "link") :
    executorLoop (QueueEvent.cancelDequeue :: rest) = [] ∧
    executorLoop (QueueEvent.item r HandlerOutcome.cancelled :: rest) =
      [ExecEvent.invoked "link_handler" r, ExecEvent.logCancelledShutdown] := by
  exact ⟨rfl, by simp [executorLoop, hv, hk]⟩

/-- Witness for the amended C5 at a concrete queue with a pending
request after the cancellation point. -/
theorem C5_cancellation_exits_loop_witness :
    executorLoop (QueueEvent.cancelDequeue ::
      [QueueEvent.item samplePrivateReq HandlerOutcome.ok]) = [] ∧
    executorLoop (QueueEvent.item sampleLinkReq HandlerOutcome.cancelled ::
      [QueueEvent.item samplePrivateReq HandlerOutcome.ok]) =
      [ExecEvent.invoked "link_handler" sampleLinkReq,
       ExecEvent.logCancelledShutdown] :=
  C5_cancellation_exits_loop sampleLinkReq
    [QueueEvent.item samplePrivateReq HandlerOutcome.ok] (by decide) rfl

/-- C8: each reaper iteration sleeps the fixed 3-hour interval first
and only then invokes the purge; a purge failure is logged and the loop
goes on to the next interval with no retry inside the interval; a
cancellation delivered during the sleep ends the loop cleanly with the
cancellation log as the only event — in particular zero purge calls
after the cancellation. -/
theorem C8_reaper_loop (e : String) (rest : List ReaperIn) :
    schedule_token_cleanup (ReaperIn.purgeOk :: rest) =
      ReaperOut.slept :: ReaperOut.purgeInvoked :: schedule_token_cleanup rest ∧
    schedule_token_cleanup (ReaperIn.purgeFails e :: rest) =
      ReaperOut.slept :: ReaperOut.purgeInvoked :: ReaperOut.logPurgeError e ::
      schedule_token_cleanup rest ∧
    schedule_token_cleanup (ReaperIn.cancelDuringSleep :: rest) =
      [ReaperOut.logCancelled] ∧
    ReaperOut.purgeInvoked ∉
      schedule_token_cleanup (ReaperIn.cancelDuringSleep :: rest) := by
  refine ⟨rfl, rfl, rfl, ?_⟩
  simp [schedule_token_cleanup]

/-- C10: validation is Python truthiness, strictly stronger than the
spec's non-null invariant: a request whose fields are all present and
non-null but with `user_id = 0` (or with `handler_type = ""`) is
classified invalid and skipped without invoking any handler, while a
well-formed request behind it still runs. -/
theorem C10_falsy_fields_rejected :
    executorLoop [QueueEvent.item
        ⟨PyVal.pystr "link", PyVal.pyobj 1, PyVal.pyobj 2, PyVal.pyobj 0, PyVal.pyint 0⟩
        HandlerOutcome.ok,
      QueueEvent.item sampleLinkReq HandlerOutcome.ok] =
      [ExecEvent.logSkipInvalid
         ⟨PyVal.pystr "link", PyVal.pyobj 1, PyVal.pyobj 2, PyVal.pyobj 0, PyVal.pyint 0⟩,
       ExecEvent.invoked "link_handler" sampleLinkReq,
       ExecEvent.handlerCompleted "link_handler" sampleLinkReq] ∧
    executorLoop [QueueEvent.item
        ⟨PyVal.pystr "", PyVal.pyobj 1, PyVal.pyobj 2, PyVal.pyobj 0, PyVal.pyint 7⟩
        HandlerOutcome.ok] =
      [ExecEvent.logSkipInvalid
         ⟨PyVal.pystr "", PyVal.pyobj 1, PyVal.pyobj 2, PyVal.pyobj 0, PyVal.pyint 7⟩] := by
  decide

/-- C6 counterexample: when the keepalive task has already exited with
a non-cancellation error, `await task` re-raises it; only
`asyncio.CancelledError` is caught, so the error escapes the shutdown
block uncaught — it is never logged, and none of the later phases
(rate-limiter shutdown, client cleanup, web-runner cleanup) run,
refuting the claim that every shutdown-phase failure is logged with all
subsequent phases still running. -/
theorem C6_counterexample :
    shutdownServices ⟨some (AwaitResult.raisedError "RuntimeError"),
        some AwaitResult.cancelledError, some AwaitResult.cancelledError,
        none, none, some none⟩ =
      ([ShutEvent.taskCancelRequested "keepalive_task"], some "RuntimeError") ∧
    ShutEvent.rateLimiterShutdownRan ∉
      (shutdownServices ⟨some (AwaitResult.raisedError "RuntimeError"),
        some AwaitResult.cancelledError, some AwaitResult.cancelledError,
        none, none, some none⟩).1 ∧
    ShutEvent.cleanupClientsRan ∉
      (shutdownServices ⟨some (AwaitResult.raisedError "RuntimeError"),
        some AwaitResult.cancelledError, some AwaitResult.cancelledError,
        none, none, some none⟩).1 := by
  decide

set_option maxHeartbeats 3000000 in
/-- C6 as amended: provided no awaited background task had already
exited with a non-cancellation error, shutdown is best-effort and
total — every present task is cancelled and awaited with the
cancellation swallowed as a successful stop, nothing escapes the
shutdown block, the rate-limiter, client-cleanup and (when the runner
exists) web-runner phases all run, and a failure inside any of those
three guarded phases is logged while the later phases still run.  A
task that already exited with a non-cancellation error instead
re-raises out of the block, skipping all later phases (see the
counterexample). -/
theorem C6_shutdown_best_effort (s : ShutdownState)
    (h1 : taskOk s.keepalive_task = true)
    (h2 : taskOk s.token_cleanup_task = true)
    (h3 : taskOk s.request_executor_task = true) :
    (shutdownServices s).2 = none ∧
    ShutEvent.rateLimiterShutdownRan ∈ (shutdownServices s).1 ∧
    ShutEvent.cleanupClientsRan ∈ (shutdownServices s).1 ∧
    (∀ e, s.rate_limiter_shutdown = some e →
      ShutEvent.logRateLimiterError e ∈ (shutdownServices s).1) ∧
    (∀ e, s.cleanup_clients = some e →
      ShutEvent.logClientCleanupError e ∈ (shutdownServices s).1) ∧
    (∀ o, s.app_runner = some o →
      ShutEvent.appRunnerCleanupRan ∈ (shutdownServices s).1) ∧
    (∀ e, s.app_runner = some (some e) →
      ShutEvent.logWebCleanupError e ∈ (shutdownServices s).1) ∧
    (∀ res, s.keepalive_task = some res →
      ShutEvent.taskCancelRequested "keepalive_task" ∈ (shutdownServices s).1 ∧
      ShutEvent.taskAwaited "keepalive_task" ∈ (shutdownServices s).1) ∧
    (∀ res, s.token_cleanup_task = some res →
      ShutEvent.taskCancelRequested "token_cleanup_task" ∈ (shutdownServices s).1 ∧
      ShutEvent.taskAwaited "token_cleanup_task" ∈ (shutdownServices s).1) ∧
    (∀ res, s.request_executor_task = some res →
      ShutEvent.taskCancelRequested "request_executor_task" ∈ (shutdownServices s).1 ∧
      ShutEvent.taskAwaited "request_executor_task" ∈ (shutdownServices s).1) := by
  obtain ⟨k, t, x, rl, cc, ar⟩ := s
  rcases taskOk_cases k h1 with rfl | rfl | rfl <;>
  rcases taskOk_cases t h2 with rfl | rfl | rfl <;>
  rcases taskOk_cases x h3 with rfl | rfl | rfl <;>
  rcases rl with _ | e1 <;> rcases cc with _ | e2 <;>
  rcases ar with _ | (_ | e3) <;>
    simp [shutdownServices, awaitTasks, phaseEvents]

/-- Witness for the amended C6: all three tasks cancel cleanly, the
rate-limiter and client phases both raise, the runner phase raises too,
and every later phase still runs with every failure logged. -/
theorem C6_shutdown_best_effort_witness :
    (shutdownServices ⟨some AwaitResult.cancelledError, some AwaitResult.finishedOk,
        some AwaitResult.cancelledError, some "rl", some "cl", some (some "web")⟩).2 = none ∧
    ShutEvent.rateLimiterShutdownRan ∈
      (shutdownServices ⟨some AwaitResult.cancelledError, some AwaitResult.finishedOk,
        some AwaitResult.cancelledError, some "rl", some "cl", some (some "web")⟩).1 ∧
    ShutEvent.cleanupClientsRan ∈
      (shutdownServices ⟨some AwaitResult.cancelledError, some AwaitResult.finishedOk,
        some AwaitResult.cancelledError, some "rl", some "cl", some (some "web")⟩).1 ∧
    ShutEvent.logRateLimiterError "rl" ∈
      (shutdownServices ⟨some AwaitResult.cancelledError, some AwaitResult.finishedOk,
        some AwaitResult.cancelledError, some "rl", some "cl", some (some "web")⟩).1 ∧
    ShutEvent.logClientCleanupError "cl" ∈
      (shutdownServices ⟨some AwaitResult.cancelledError, some AwaitResult.finishedOk,
        some AwaitResult.cancelledError, some "rl", some "cl", some (some "web")⟩).1 ∧
    ShutEvent.appRunnerCleanupRan ∈
      (shutdownServices ⟨some AwaitResult.cancelledError, some AwaitResult.finishedOk,
        some AwaitResult.cancelledError, some "rl", some "cl", some (some "web")⟩).1 ∧
    ShutEvent.logWebCleanupError "web" ∈
      (shutdownServices ⟨some AwaitResult.cancelledError, some AwaitResult.finishedOk,
        some AwaitResult.cancelledError, some "rl", some "cl", some (some "web")⟩).1 ∧
    ShutEvent.taskCancelRequested "keepalive_task" ∈
      (shutdownServices ⟨some AwaitResult.cancelledError, some AwaitResult.finishedOk,
        some AwaitResult.cancelledError, some "rl", some "cl", some (some "web")⟩).1 ∧
    ShutEvent.taskAwaited "token_cleanup_task" ∈
      (shutdownServices ⟨some AwaitResult.cancelledError, some AwaitResult.finishedOk,
        some AwaitResult.cancelledError, some "rl", some "cl", some (some "web")⟩).1 := by
  obtain ⟨g1, g2, g3, g4, g5, g6, g7, g8, g9, g10⟩ :=
    C6_shutdown_best_effort ⟨some AwaitResult.cancelledError, some AwaitResult.finishedOk,
      some AwaitResult.cancelledError, some "rl", some "cl", some (some "web")⟩
      rfl rfl rfl
  exact ⟨g1, g2, g3, g4 "rl" rfl, g5 "cl" rfl, g6 (some "web") rfl, g7 "web" rfl,
    (g8 AwaitResult.cancelledError rfl).1, (g9 AwaitResult.finishedOk rfl).2⟩

/-- C7 counterexample: after a listener-bind failure the request
executor task started at `__main__.py:127` is left running —
`start_services` returns without cancelling it (and no code path
cancels it), refuting the claim that after a listener-bind failure no
started background task remains running. -/
theorem C7_counterexample :
    (start_services ⟨none, none, some "bind failed"⟩).2 = ["request_executor_task"] ∧
    (start_services ⟨none, none, some "bind failed"⟩).2 ≠ [] := by
  decide

/-- C7 as amended: a failure in primary authentication or in secondary
client initialization aborts startup before any background task exists,
so none is left running; a listener-bind failure also aborts startup —
the web server, keepalive task, token reaper and idle phase never
start — but the already-started request executor task is left running,
not cancelled. -/
theorem C7_startup_abort (e : String) :
    start_services ⟨some e, none, none⟩ = ([StartEvent.logBotInitError e], []) ∧
    start_services ⟨none, some e, none⟩ = ([StartEvent.logClientInitError e], []) ∧
    start_services ⟨none, none, some e⟩ =
      ([StartEvent.pluginsImported, StartEvent.executorTaskStarted,
        StartEvent.logWebStartError e], ["request_executor_task"]) ∧
    StartEvent.webServerStarted ∉ (start_services ⟨none, none, some e⟩).1 ∧
    StartEvent.keepaliveTaskStarted ∉ (start_services ⟨none, none, some e⟩).1 ∧
    StartEvent.enteredIdle ∉ (start_services ⟨none, none, some e⟩).1 := by
  refine ⟨rfl, rfl, rfl, ?_, ?_, ?_⟩ <;> simp [start_services]

/-- C9: with at least two attempts available, an operation that is
rejected once with flood-wait `retry_after = 5` and then succeeds makes
the guard sleep `5` plus the safety margin — at least 5 time units —
re-invoke, and hand the caller the successful value, so the caller
never observes the intermediate rejection; an operation that fails with
a non-flood-wait error has that error propagated unchanged with no
sleeping and no retry. -/
theorem C9_retry_guard {α : Type} (margin attempts : Nat)
    (op1 op2 : Nat → ApiResult α) (a : α) (e : String)
    (h0 : op1 0 = ApiResult.floodWait 5) (h1 : op1 1 = ApiResult.ok a)
    (hA : 2 ≤ attempts) (h2 : op2 0 = ApiResult.failure e) :
    (handle_flood_wait margin attempts op1 0 0 = (Except.ok a, 5 + margin) ∧
      5 ≤ 5 + margin) ∧
    handle_flood_wait margin attempts op2 0 0 = (Except.error e, 0) := by
  obtain ⟨k, rfl⟩ : ∃ k, attempts = (k + 1) + 1 := ⟨attempts - 2, by omega⟩
  refine ⟨⟨?_, by omega⟩, ?_⟩
  · simp [handle_flood_wait, h0, h1]
  · simp [handle_flood_wait, h2]

/-- Witness for C9 at a concrete operation failing once with
flood-wait 5 then returning 99, margin 1, two attempts, and a concrete
operation failing outright. -/
theorem C9_retry_guard_witness :
    (handle_flood_wait 1 2
        (fun n => if n = 0 then ApiResult.floodWait 5 else ApiResult.ok 99) 0 0 =
        (Except.ok 99, 5 + 1) ∧ 5 ≤ 5 + 1) ∧
    handle_flood_wait 1 2 (fun _ => (ApiResult.failure "boom" : ApiResult Nat)) 0 0 =
      (Except.error "boom", 0) :=
  C9_retry_guard 1 2
    (fun n => if n = 0 then ApiResult.floodWait 5 else ApiResult.ok 99)
    (fun _ => ApiResult.failure "boom") 99 "boom" rfl rfl (by omega) rfl

end Thunder
